import Mathlib

set_option maxRecDepth 100000

/-!
Verification of the request-admission and delivery-guarantee layer of the
ltx-vid-gen repository: input validation (SSRF defense), credential
authentication, rate limiting, the job state machine, webhook signing and
delivery.  Each definition is a shallow embedding of the corresponding
Python function, named after it where Lean permits.  Machine integers do
not arise (Python ints are unbounded); SHA-256 words are naturals reduced
mod 2^32 exactly where the algorithm does.  Network and database effects
are made explicit: DNS resolution is a function parameter, the database
row is a record value, and the webhook delivery loop returns its full
trace of persisted updates and sleeps.
-/

namespace LtxVidGen

/-! ## Bytes, UTF-8 and hex

Python `str.encode()` produces UTF-8 bytes; bytes are modelled as `Nat`
values below 256. -/

/-- UTF-8 encoding of a single character (RFC 3629), the byte sequence
`str.encode()` emits for it. -/
def utf8Char (c : Char) : List Nat :=
  let n := c.toNat
  if n < 128 then [n]
  else if n < 2048 then [192 ||| (n >>> 6), 128 ||| (n &&& 63)]
  else if n < 65536 then
    [224 ||| (n >>> 12), 128 ||| ((n >>> 6) &&& 63), 128 ||| (n &&& 63)]
  else
    [240 ||| (n >>> 18), 128 ||| ((n >>> 12) &&& 63),
     128 ||| ((n >>> 6) &&& 63), 128 ||| (n &&& 63)]

/-- Python `s.encode()`: the UTF-8 bytes of a string. -/
def utf8Bytes (s : String) : List Nat := (s.data.map utf8Char).flatten

/-- Python string slicing `s[:n]`: the first `n` characters (code points). -/
def pyTake (n : Nat) (s : String) : String := String.mk (s.data.take n)

/-- Lower-case hex digit for a value below 16. -/
def hexChar (n : Nat) : Char :=
  if n < 10 then Char.ofNat (48 + n) else Char.ofNat (87 + n)

/-- Two lower-case hex digits of one byte. -/
def byteHex (b : Nat) : List Char := [hexChar (b / 16), hexChar (b % 16)]

/-- Python `hashlib`/`hmac` `.hexdigest()`: lower-case hex of a byte string. -/
def hexOfBytes (bs : List Nat) : String :=
  String.mk (bs.foldr (fun b acc => byteHex b ++ acc) [])

/-! ## SHA-256 (FIPS 180-4), as used by `hashlib.sha256` -/

/-- Reduce to a 32-bit word. -/
def w32 (n : Nat) : Nat := n % 4294967296

/-- Rotate a 32-bit word right by `k` bits. -/
def rotr32 (k x : Nat) : Nat := w32 ((x >>> k) ||| (x <<< (32 - k)))

/-- SHA-256 Σ0. -/
def bigSigma0 (x : Nat) : Nat := (rotr32 2 x) ^^^ (rotr32 13 x) ^^^ (rotr32 22 x)

/-- SHA-256 Σ1. -/
def bigSigma1 (x : Nat) : Nat := (rotr32 6 x) ^^^ (rotr32 11 x) ^^^ (rotr32 25 x)

/-- SHA-256 σ0. -/
def smallSigma0 (x : Nat) : Nat := (rotr32 7 x) ^^^ (rotr32 18 x) ^^^ (x >>> 3)

/-- SHA-256 σ1. -/
def smallSigma1 (x : Nat) : Nat := (rotr32 17 x) ^^^ (rotr32 19 x) ^^^ (x >>> 10)

/-- SHA-256 Ch; complement taken inside 32 bits. -/
def chFn (x y z : Nat) : Nat := (x &&& y) ^^^ ((x ^^^ 4294967295) &&& z)

/-- SHA-256 Maj. -/
def majFn (x y z : Nat) : Nat := (x &&& y) ^^^ (x &&& z) ^^^ (y &&& z)

/-- SHA-256 round constants (FIPS 180-4 section 4.2.2, here in decimal). -/
def K256 : List Nat :=
  [1116352408, 1899447441, 3049323471, 3921009573,
   961987163, 1508970993, 2453635748, 2870763221,
   3624381080, 310598401, 607225278, 1426881987,
   1925078388, 2162078206, 2614888103, 3248222580,
   3835390401, 4022224774, 264347078, 604807628,
   770255983, 1249150122, 1555081692, 1996064986,
   2554220882, 2821834349, 2952996808, 3210313671,
   3336571891, 3584528711, 113926993, 338241895,
   666307205, 773529912, 1294757372, 1396182291,
   1695183700, 1986661051, 2177026350, 2456956037,
   2730485921, 2820302411, 3259730800, 3345764771,
   3516065817, 3600352804, 4094571909, 275423344,
   430227734, 506948616, 659060556, 883997877,
   958139571, 1322822218, 1537002063, 1747873779,
   1955562222, 2024104815, 2227730452, 2361852424,
   2428436474, 2756734187, 3204031479, 3329325298]

/-- Big-endian bytes of a value, fixed width `k`. -/
def beBytes : Nat → Nat → List Nat
  | 0, _ => []
  | k + 1, v => beBytes k (v >>> 8) ++ [v &&& 255]

/-- SHA-256 message padding: append 0x80, zeros to 56 mod 64, then the
bit length as 8 big-endian bytes. -/
def sha256Pad (msg : List Nat) : List Nat :=
  let len := msg.length
  let zeros := (64 + 56 - ((len + 1) % 64)) % 64
  msg ++ [128] ++ List.replicate zeros 0 ++ beBytes 8 (len * 8)

/-- Group bytes into big-endian 32-bit words, four bytes at a time. -/
def bytesToWords : List Nat → List Nat
  | b0 :: b1 :: b2 :: b3 :: rest =>
      ((((b0 <<< 8) ||| b1) <<< 8 ||| b2) <<< 8 ||| b3) :: bytesToWords rest
  | _ => []

/-- Extend the message schedule `n` more words; the accumulator holds the
schedule so far in reverse (most recent word first). -/
def extendSchedule : Nat → List Nat → List Nat
  | 0, wrev => wrev
  | n + 1, wrev =>
      let t := w32 (smallSigma1 (wrev.getD 1 0) + wrev.getD 6 0 +
                    smallSigma0 (wrev.getD 14 0) + wrev.getD 15 0)
      extendSchedule n (t :: wrev)

/-- Full 64-word message schedule from the 16 words of one chunk. -/
def schedule (ws : List Nat) : List Nat := (extendSchedule 48 ws.reverse).reverse

/-- The eight 32-bit working variables of SHA-256 compression. -/
structure Hash8 where
  a : Nat
  b : Nat
  c : Nat
  d : Nat
  e : Nat
  f : Nat
  g : Nat
  h : Nat
deriving DecidableEq, Repr

/-- One SHA-256 compression round, fed the pair (round constant, schedule word). -/
def compressStep (s : Hash8) (kw : Nat × Nat) : Hash8 :=
  let t1 := w32 (s.h + bigSigma1 s.e + chFn s.e s.f s.g + kw.1 + kw.2)
  let t2 := w32 (bigSigma0 s.a + majFn s.a s.b s.c)
  ⟨w32 (t1 + t2), s.a, s.b, s.c, w32 (s.d + t1), s.e, s.f, s.g⟩

/-- Process one 64-byte chunk: 64 compression rounds, then add into the state. -/
def processChunk (h0 : Hash8) (chunk : List Nat) : Hash8 :=
  let ws := schedule (bytesToWords chunk)
  let s := (K256.zip ws).foldl compressStep h0
  ⟨w32 (h0.a + s.a), w32 (h0.b + s.b), w32 (h0.c + s.c), w32 (h0.d + s.d),
   w32 (h0.e + s.e), w32 (h0.f + s.f), w32 (h0.g + s.g), w32 (h0.h + s.h)⟩

/-- Fold over the chunks of the padded message; `n` counts the 64-byte
chunks remaining, so the recursion is structural. -/
def processChunks : Nat → Hash8 → List Nat → Hash8
  | 0, h0, _ => h0
  | n + 1, h0, l => processChunks n (processChunk h0 (l.take 64)) (l.drop 64)

/-- SHA-256 initial hash value (FIPS 180-4 section 5.3.3, in decimal). -/
def sha256InitH : Hash8 :=
  ⟨1779033703, 3144134277, 1013904242, 2773480762,
   1359893119, 2600822924, 528734635, 1541459225⟩

/-- SHA-256 digest of a byte string, as 32 bytes. -/
def sha256 (msg : List Nat) : List Nat :=
  let padded := sha256Pad msg
  let fin := processChunks (padded.length / 64) sha256InitH padded
  beBytes 4 fin.a ++ beBytes 4 fin.b ++ beBytes 4 fin.c ++ beBytes 4 fin.d ++
  beBytes 4 fin.e ++ beBytes 4 fin.f ++ beBytes 4 fin.g ++ beBytes 4 fin.h

/-- HMAC-SHA256 (RFC 2104) over byte strings, as computed by
`hmac.new(key, msg, hashlib.sha256)`. -/
def hmacSha256 (key msg : List Nat) : List Nat :=
  let k0 := if key.length > 64 then sha256 key else key
  let kp := k0 ++ List.replicate (64 - k0.length) 0
  let ipadded := kp.map (fun b => b ^^^ 54)
  let opadded := kp.map (fun b => b ^^^ 92)
  sha256 (opadded ++ sha256 (ipadded ++ msg))

/-! ## Canonical JSON (`json.dumps(payload, sort_keys=True)`)

Webhook payloads are flat dictionaries of strings, integers and nulls;
`json.dumps` with `sort_keys=True` and default separators renders them as
`\x7b"k": v, ...\x7d` with keys in code-point order and non-ASCII
characters escaped (`ensure_ascii` default). -/

/-- A JSON value as it appears in webhook payloads. -/
inductive JValue where
  | jstr (s : String)
  | jnum (n : Int)
  | jnull
deriving DecidableEq, Repr

/-- A payload dictionary: an association list with distinct keys. -/
abbrev Payload := List (String × JValue)

/-- Four lower-case hex digits of a value below 2^16. -/
def hex4 (n : Nat) : List Char :=
  [hexChar ((n / 4096) % 16), hexChar ((n / 256) % 16),
   hexChar ((n / 16) % 16), hexChar (n % 16)]

/-- Escape one character the way the json module does with `ensure_ascii`:
short escapes for the common controls, `\uXXXX` for other controls and all
non-ASCII (surrogate pairs above the BMP), everything in 0x20..0x7e as is. -/
def jsonEscapeChar (c : Char) : List Char :=
  let n := c.toNat
  if c = '"' then ['\\', '"']
  else if c = '\\' then ['\\', '\\']
  else if n = 8 then ['\\', 'b']
  else if n = 9 then ['\\', 't']
  else if n = 10 then ['\\', 'n']
  else if n = 12 then ['\\', 'f']
  else if n = 13 then ['\\', 'r']
  else if n < 32 then '\\' :: 'u' :: hex4 n
  else if n < 127 then [c]
  else if n < 65536 then '\\' :: 'u' :: hex4 n
  else
    let m := n - 65536
    ('\\' :: 'u' :: hex4 (55296 + m / 1024)) ++ ('\\' :: 'u' :: hex4 (56320 + m % 1024))

/-- JSON string literal for a payload key or value. -/
def jsonString (s : String) : String :=
  String.mk ('"' :: (s.data.map jsonEscapeChar).flatten ++ ['"'])

/-- Rendering of one JSON value. -/
def jsonRender : JValue → String
  | .jstr s => jsonString s
  | .jnum n => toString n
  | .jnull => "null"

/-- Code-point lexicographic order on characters lists, Python string `<=`. -/
def charListLe : List Char → List Char → Bool
  | [], _ => true
  | _ :: _, [] => false
  | a :: as, b :: bs =>
      if a.toNat < b.toNat then true
      else if b.toNat < a.toNat then false
      else charListLe as bs

/-- Insert one entry into a key-sorted association list. -/
def insertSorted (p : String × JValue) : List (String × JValue) → List (String × JValue)
  | [] => [p]
  | q :: rest => if charListLe p.1.data q.1.data then p :: q :: rest else q :: insertSorted p rest

/-- Stable sort of the payload entries by key, Python `sorted` on the keys. -/
def sortByKey : List (String × JValue) → List (String × JValue)
  | [] => []
  | p :: rest => insertSorted p (sortByKey rest)

/-- Python `json.dumps(payload, sort_keys=True)`: canonical key-sorted JSON
text with the default separators. -/
def canonicalJson (p : Payload) : String :=
  let items := (sortByKey p).map (fun kv => jsonString kv.1 ++ ": " ++ jsonRender kv.2)
  "\x7b" ++ String.intercalate ", " items ++ "\x7d"

/-! ## Webhook signing (`webhooks.py`) -/

/-- Python `hmac.compare_digest` on two hex strings: equality, with the
timing behaviour abstracted away. -/
def constant_time_compare (a b : String) : Bool := a == b

/-- WebhookDelivery._generate_signature: hex HMAC-SHA256 of the canonical
key-sorted JSON bytes under the shared secret. -/
def generate_signature (secret : String) (payload : Payload) : String :=
  hexOfBytes (hmacSha256 (utf8Bytes secret) (utf8Bytes (canonicalJson payload)))

/-- WebhookDelivery.verify_webhook_signature: recompute the signature and
compare it (constant-time) with the received header. -/
def verify_webhook_signature (payload : Payload) (signature : String) (secret : String) : Bool :=
  constant_time_compare signature (generate_signature secret payload)

/-! ## In-memory rate limiter (`auth.py`)

Timestamps are rationals: `datetime` subtraction yields fractional
seconds. The limiter state for one fingerprint is its list of recorded
request times. -/

/-- The pruning step of InMemoryRateLimiter.check_rate_limit: keep the
timestamps strictly younger than 60 seconds. -/
def pruneWindow (now : ℚ) (times : List ℚ) : List ℚ :=
  times.filter (fun ts => now - ts < 60)

/-- InMemoryRateLimiter.check_rate_limit for one fingerprint: prune the
window, deny when the pruned count has reached the limit, otherwise record
the request. Returns the allow flag and the new stored list. -/
def check_rate_limit (times : List ℚ) (now : ℚ) (limit : Nat) : Bool × List ℚ :=
  if limit ≤ (pruneWindow now times).length then (false, pruneWindow now times)
  else (true, pruneWindow now times ++ [now])

/-- Outcome of the development rate-limit wrapper: pass, or a
RateLimitError carrying its fixed Retry-After header value. -/
inductive DevLimitOutcome where
  | allowed
  | rateLimitError (retryAfterSeconds : Nat)
deriving DecidableEq, Repr

/-- auth.check_rate_limit_dev: raises RateLimitError (Retry-After 60) when
the in-memory limiter denies. -/
def check_rate_limit_dev (times : List ℚ) (now : ℚ) (limit : Nat) :
    DevLimitOutcome × List ℚ :=
  let r := check_rate_limit times now limit
  if r.1 then (.allowed, r.2) else (.rateLimitError 60, r.2)

/-- Fold a sequence of request times through the limiter for one
fingerprint, starting from the empty window. -/
def runLimiter (limit : Nat) (reqs : List ℚ) : List ℚ :=
  reqs.foldl (fun st t => (check_rate_limit st t limit).2) []

/-! ## Job store (`database.py`)

One row of the video_jobs table. The SQL UPDATE statements of
update_job_status, complete_job, fail_job and update_webhook_delivered
filter only on job_id, so each is an unconditional field update on the
row; `CURRENT_TIMESTAMP` is passed in as `now`. -/

/-- A video_jobs row, with the columns the claims touch. -/
structure Job where
  job_id : String
  status : String
  created_at : Option ℚ
  started_at : Option ℚ
  completed_at : Option ℚ
  video_url : Option String
  video_object_name : Option String
  generation_time_seconds : Option ℚ
  error_message : Option String
  webhook_url : Option String
  webhook_delivered : Bool
  webhook_attempts : Nat
  last_webhook_attempt : Option ℚ
deriving DecidableEq, Repr

/-- OracleDatabase.create_job: a fresh row inserted with status queued and
no result, error, or webhook bookkeeping yet. -/
def create_job (job_id : String) (webhook_url : Option String) (now : ℚ) : Job :=
  { job_id := job_id, status := "queued", created_at := some now,
    started_at := none, completed_at := none, video_url := none,
    video_object_name := none, generation_time_seconds := none,
    error_message := none, webhook_url := webhook_url,
    webhook_delivered := false, webhook_attempts := 0,
    last_webhook_attempt := none }

/-- OracleDatabase.update_job_status: sets the status, and started_at when
one is supplied; there is no guard on the current status. -/
def update_job_status (j : Job) (status : String) (started_at : Option ℚ) : Job :=
  match started_at with
  | some t => { j with status := status, started_at := some t }
  | none => { j with status := status }

/-- The handler's transition to processing (process_job step 2): it always
passes `started_at=datetime.utcnow()`. -/
def mark_processing (j : Job) (now : ℚ) : Job :=
  update_job_status j "processing" (some now)

/-- OracleDatabase.complete_job: unconditional update of the row —
status completed, server-side completion timestamp, result fields. -/
def complete_job (j : Job) (video_url object_name : String)
    (generation_time : ℚ) (now : ℚ) : Job :=
  { j with status := "completed", completed_at := some now,
           video_url := some video_url, video_object_name := some object_name,
           generation_time_seconds := some generation_time }

/-- OracleDatabase.fail_job: truncates the message to 4000 characters,
then unconditionally sets status failed, the completion timestamp and the
error message. -/
def fail_job (j : Job) (msg : String) (now : ℚ) : Job :=
  { j with status := "failed", completed_at := some now,
           error_message := some (pyTake 4000 msg) }

/-- OracleDatabase.update_webhook_delivered: updates only the webhook
bookkeeping columns of the row. -/
def update_webhook_delivered (j : Job) (delivered : Bool) (attempts : Nat)
    (now : ℚ) : Job :=
  { j with webhook_delivered := delivered, webhook_attempts := attempts,
           last_webhook_attempt := some now }

/-! ## Webhook delivery loop (`WebhookDelivery.deliver_webhook`)

The delivery recursion, instrumented with its observable trace: the
sequence of update_webhook_delivered calls it issues and the backoff
sleeps it performs. `respond attempt` tells whether the POST of that
attempt got a 2xx response; all non-2xx responses and transport errors
take the same failure path. The recursion is bounded by
`maxRetries + 1 - attempt`, carried as explicit fuel; the fuel-0 case
coincides with the `attempt > max_retries` guard, so the function equals
the source recursion. -/

/-- Trace of one deliver_webhook call tree. -/
structure DeliveryTrace where
  dbUpdates : List (Bool × Nat)
  sleeps : List ℚ
  delivered : Bool
deriving DecidableEq, Repr

/-- The instrumented recursion of deliver_webhook. -/
def deliverWebhookAux (respond : Nat → Bool) (maxRetries : Nat) :
    Nat → Nat → DeliveryTrace
  | 0, _ => ⟨[], [], false⟩
  | fuel + 1, attempt =>
      if maxRetries < attempt then ⟨[], [], false⟩
      else if respond attempt then ⟨[(true, attempt)], [], true⟩
      else if attempt < maxRetries then
        let backoff : ℚ := (2 ^ attempt) * (5 / 2)
        let rest := deliverWebhookAux respond maxRetries fuel (attempt + 1)
        ⟨(false, attempt) :: rest.dbUpdates, backoff :: rest.sleeps, rest.delivered⟩
      else ⟨[(false, attempt)], [], false⟩

/-- WebhookDelivery.deliver_webhook entered at a given attempt number
(the orchestrator calls it with attempt 1). -/
def deliver_webhook (respond : Nat → Bool) (maxRetries : Nat) (attempt : Nat) :
    DeliveryTrace :=
  deliverWebhookAux respond maxRetries (maxRetries + 1 - attempt) attempt

/-- Apply a trace of update_webhook_delivered calls to a job row, each at
its own server timestamp. -/
def applyDeliveryTrace (j : Job) (upds : List (Bool × Nat)) (now : ℚ) : Job :=
  upds.foldl (fun row u => update_webhook_delivered row u.1 u.2 now) j

/-! ## Error sanitization (`utils.py`) and the handler failure path

`sanitize_error_message` applies four `re.sub` passes, then truncation,
then an optional exception-type prefix. Each pass is the standard
leftmost, greedy, non-overlapping substitution; the scanners below carry
the list length as fuel (each step consumes at least one character, so
the fuel never runs out). Character classes are modelled over ASCII. -/

/-- A Python exception as the handler sees it: its type name and str(e). -/
structure PyError where
  etype : String
  msg : String
deriving DecidableEq, Repr

/-- Membership in the class `[\w/\-\.]` of the path pattern. -/
def isPathChar (c : Char) : Bool :=
  c.isAlphanum || c = '_' || c = '/' || c = '-' || c = '.'

/-- Replacement text `[PATH]`. -/
def pathRepl : List Char := ['[', 'P', 'A', 'T', 'H', ']']

/-- Substitution pass for `(/[\w/\-\.]+)`: a slash followed by at least
one path character, replaced by `[PATH]`. -/
def subPathsFuel : Nat → List Char → List Char
  | 0, l => l
  | _ + 1, [] => []
  | fuel + 1, c :: rest =>
      if c = '/' && (match rest with | d :: _ => isPathChar d | [] => false) then
        pathRepl ++ subPathsFuel fuel (rest.dropWhile isPathChar)
      else c :: subPathsFuel fuel rest

/-- Membership in the class `[\w\\\-\.]` of the Windows-path pattern. -/
def isWinPathChar (c : Char) : Bool :=
  c.isAlphanum || c = '_' || c = '\\' || c = '-' || c = '.'

/-- Substitution pass for `([A-Z]:\\[\w\\\-\.]+)`: a drive letter, colon,
backslash and at least one class character, replaced by `[PATH]`. -/
def subWinPathsFuel : Nat → List Char → List Char
  | 0, l => l
  | _ + 1, [] => []
  | fuel + 1, c :: rest =>
      match rest with
      | ':' :: '\\' :: d :: rest2 =>
          if 'A' ≤ c && c ≤ 'Z' && isWinPathChar d then
            pathRepl ++ subWinPathsFuel fuel ((d :: rest2).dropWhile isWinPathChar)
          else c :: subWinPathsFuel fuel rest
      | _ => c :: subWinPathsFuel fuel rest

/-- Substitution pass for `line \d+` to `line [N]`. -/
def subLineRefsFuel : Nat → List Char → List Char
  | 0, l => l
  | _ + 1, [] => []
  | fuel + 1, c :: rest =>
      match c, rest with
      | 'l', 'i' :: 'n' :: 'e' :: ' ' :: d :: rest2 =>
          if d.isDigit then
            ['l', 'i', 'n', 'e', ' ', '[', 'N', ']'] ++
              subLineRefsFuel fuel ((d :: rest2).dropWhile Char.isDigit)
          else c :: subLineRefsFuel fuel rest
      | _, _ => c :: subLineRefsFuel fuel rest

/-- Hex digit test for the memory-address pattern. -/
def isHexDigitChar (c : Char) : Bool :=
  c.isDigit || ('a' ≤ c && c ≤ 'f') || ('A' ≤ c && c ≤ 'F')

/-- Substitution pass for `0x[0-9a-fA-F]+` to `0x[ADDR]`. -/
def subAddrsFuel : Nat → List Char → List Char
  | 0, l => l
  | _ + 1, [] => []
  | fuel + 1, c :: rest =>
      match c, rest with
      | '0', 'x' :: d :: rest2 =>
          if isHexDigitChar d then
            ['0', 'x', '[', 'A', 'D', 'D', 'R', ']'] ++
              subAddrsFuel fuel ((d :: rest2).dropWhile isHexDigitChar)
          else c :: subAddrsFuel fuel rest
      | _, _ => c :: subAddrsFuel fuel rest

/-- utils.truncate_string: cut to the length bound and append the suffix. -/
def truncate_string (text : String) (max_length : Nat) (suffix : String) : String :=
  if text.length ≤ max_length then text
  else pyTake (max_length - suffix.length) text ++ suffix

/-- utils.sanitize_error_message: strip path-like substrings, source line
references and memory addresses, truncate to 200 characters, and prefix
the exception type name when asked. -/
def sanitize_error_message (e : PyError) (include_type : Bool) : String :=
  let m1 := String.mk (subPathsFuel e.msg.data.length e.msg.data)
  let m2 := String.mk (subWinPathsFuel m1.data.length m1.data)
  let m3 := String.mk (subLineRefsFuel m2.data.length m2.data)
  let m4 := String.mk (subAddrsFuel m3.data.length m3.data)
  let m5 := truncate_string m4 200 "..."
  if include_type then e.etype ++ ": " ++ m5 else m5

/-- The failure path of handler.process_job: the job row is updated with
`db.fail_job(job_id, str(e))` — the raw exception text, not the sanitized
message (which is only placed in the handler's return value). -/
def processJobFailure (j : Job) (e : PyError) (now : ℚ) : Job :=
  fail_job j e.msg now

/-- WebhookDelivery.send_completion_webhook payload built from a job row;
timestamps are rendered through `timeJson` (isoformat abstracted as the
decimal rendering of the rational timestamp). -/
def timeJson : Option ℚ → JValue
  | some t => .jstr (toString t)
  | none => .jnull

/-- Optional string column to JSON. -/
def optStrJson : Option String → JValue
  | some s => .jstr s
  | none => .jnull

/-- The payload send_completion_webhook posts for a job: base fields, plus
result fields when completed, plus the stored error message when failed. -/
def buildWebhookPayload (j : Job) : Payload :=
  let base := [("job_id", JValue.jstr j.job_id), ("status", JValue.jstr j.status),
               ("created_at", timeJson j.created_at),
               ("completed_at", timeJson j.completed_at)]
  if j.status = "completed" then
    base ++ [("video_url", optStrJson j.video_url),
             ("generation_time_seconds", timeJson j.generation_time_seconds)]
  else if j.status = "failed" then
    base ++ [("error_message", optStrJson j.error_message)]
  else base

/-! ## Credential verification (`auth.py`) -/

/-- auth.hash_api_key: SHA-256 hexdigest of the credential. -/
def hash_api_key (api_key : String) : String :=
  hexOfBytes (sha256 (utf8Bytes api_key))

/-- Characters allowed by auth.validate_api_key_format. -/
def allowedKeyChar (c : Char) : Bool :=
  c.isAlphanum || c = '-' || c = '_'

/-- auth.validate_api_key_format: nonempty, at least 16 characters, all
from the URL-safe alphabet. -/
def validate_api_key_format (api_key : String) : Bool :=
  api_key ≠ "" && 16 ≤ api_key.length && api_key.data.all allowedKeyChar

/-- The comparison loop of auth.verify_api_key, instrumented with the
number of constant_time_compare invocations performed: the source breaks
out of the loop on the first match. -/
def verifyLoop (key_hash : String) : List String → Bool × Nat
  | [] => (false, 0)
  | ck :: rest =>
      if constant_time_compare key_hash (hash_api_key ck) then (true, 1)
      else
        let r := verifyLoop key_hash rest
        (r.1, r.2 + 1)

/-- Outcome of credential verification. -/
inductive AuthOutcome where
  | ok (key_hash : String)
  | authenticationError (detail : String)
deriving DecidableEq, Repr

/-- auth.verify_api_key with the configured key list made explicit,
returning the outcome and the number of hash comparisons performed. -/
def verify_api_key (configured_keys : List String) (x_api_key : Option String) :
    AuthOutcome × Nat :=
  match x_api_key with
  | none => (.authenticationError "Missing API key", 0)
  | some k =>
      if k = "" then (.authenticationError "Missing API key", 0)
      else if ¬ validate_api_key_format k then
        (.authenticationError "Invalid API key format", 0)
      else
        let key_hash := hash_api_key k
        let r := verifyLoop key_hash configured_keys
        if r.1 then (.ok key_hash, r.2)
        else (.authenticationError "Invalid API key", r.2)

/-! ## URL parsing (`urllib.parse.urlparse`, the parts the validators use)

The validators consult only `parsed.scheme` and `parsed.hostname`. The
model follows CPython urlsplit: strip leading C0-control-or-space
characters, remove tab, CR and LF everywhere, split a scheme of the form
`alpha (alnum|+|-|.)*` before the first colon (lowercased), take the
netloc only after a leading `//` up to the first `/`, `?` or `#`, and
read the hostname from the netloc: after the last at-sign, inside the
first bracket pair when one opens, else before the first colon;
lowercased, and None when empty. -/

/-- Preprocessing urlsplit applies before parsing. -/
def urlPreprocess (url : String) : List Char :=
  (url.data.dropWhile (fun c => c.toNat ≤ 32)).filter
    (fun c => c ≠ '\t' && c ≠ '\r' && c ≠ '\n')

/-- Characters allowed in a URL scheme after the leading letter. -/
def isSchemeChar (c : Char) : Bool :=
  c.isAlpha || c.isDigit || c = '+' || c = '-' || c = '.'

/-- Split off the scheme: the characters before the first colon when they
start with a letter and all lie in the scheme alphabet; lowercased. -/
def splitScheme (l : List Char) : String × List Char :=
  let pre := l.takeWhile (fun c => c ≠ ':')
  if pre.length < l.length ∧ 0 < pre.length ∧
      (pre.headD ' ').isAlpha ∧ pre.all isSchemeChar then
    (String.mk (pre.map Char.toLower), l.drop (pre.length + 1))
  else ("", l)

/-- The netloc: present only after a leading double slash, up to the first
slash, question mark or hash. -/
def netlocOf : List Char → List Char
  | '/' :: '/' :: rest => rest.takeWhile (fun c => c ≠ '/' && c ≠ '?' && c ≠ '#')
  | _ => []

/-- Everything after the last at-sign (rpartition), the whole list when
there is none. -/
def afterLastAt (l : List Char) : List Char :=
  (l.reverse.takeWhile (fun c => c ≠ '@')).reverse

/-- The hostname read from a netloc: bracket contents when a bracket
opens, else the part before the first colon; lowercased, None if empty. -/
def hostnameOfNetloc (netloc : List Char) : Option String :=
  let hostinfo := afterLastAt netloc
  let host :=
    if hostinfo.contains '[' then
      ((hostinfo.dropWhile (fun c => c ≠ '[')).drop 1).takeWhile (fun c => c ≠ ']')
    else hostinfo.takeWhile (fun c => c ≠ ':')
  if host.isEmpty then none
  else some (String.mk (host.map Char.toLower))

/-- The two components of a parsed URL that the validators use. -/
structure ParsedUrl where
  scheme : String
  hostname : Option String
deriving DecidableEq, Repr

/-- Python `urlparse(url)`, restricted to scheme and hostname. -/
def urlparse (url : String) : ParsedUrl :=
  let l := urlPreprocess url
  let sr := splitScheme l
  ⟨sr.1, hostnameOfNetloc (netlocOf sr.2)⟩

/-! ## IP address parsing (`ipaddress.ip_address`) and blocked ranges -/

/-- Decimal value of a digit string. -/
def decValue (s : List Char) : Nat :=
  s.foldl (fun a c => a * 10 + (c.toNat - 48)) 0

/-- A valid IPv4 octet: one to three decimal digits, no leading zero,
value at most 255. -/
def validOctet (s : List Char) : Bool :=
  !s.isEmpty && s.all Char.isDigit && s.length ≤ 3 &&
  (s.length == 1 || s.headD '0' ≠ '0') && decValue s ≤ 255

/-- Split a character list on a separator (like str.split). -/
def splitChar (sep : Char) (l : List Char) : List (List Char) :=
  l.foldr
    (fun c acc =>
      match acc with
      | cur :: done => if c = sep then [] :: cur :: done else (c :: cur) :: done
      | [] => [[c]])
    [[]]

/-- Python `IPv4Address` parsing: four dot-separated valid octets, as the
32-bit value. -/
def parseIPv4 (s : String) : Option Nat :=
  let parts := splitChar '.' s.data
  if parts.length == 4 && parts.all validOctet then
    some (parts.foldl (fun a p => a * 256 + decValue p) 0)
  else none

/-- Hex digit value (either case). -/
def hexVal (c : Char) : Nat :=
  if c.isDigit then c.toNat - 48
  else if 'a' ≤ c && c ≤ 'f' then c.toNat - 87
  else c.toNat - 55

/-- A valid IPv6 hextet: one to four hex digits. -/
def validHextet (s : List Char) : Bool :=
  !s.isEmpty && s.length ≤ 4 && s.all isHexDigitChar

/-- Value of a hextet. -/
def hextetValue (s : List Char) : Nat :=
  s.foldl (fun a c => a * 16 + hexVal c) 0

/-- Lowercase hex digits of a value (like Python %x), for the two hextets
an embedded IPv4 tail expands to. -/
def natHexAux : Nat → Nat → List Char
  | 0, _ => []
  | f + 1, v => if v = 0 then [] else natHexAux f (v / 16) ++ [hexChar (v % 16)]

/-- Lowercase hex rendering of a value below 2^16. -/
def natHexChars (v : Nat) : List Char :=
  if v = 0 then ['0'] else natHexAux 8 v

/-- Python `IPv6Address` parsing, following _ip_int_from_string: split on
colons, expand an embedded IPv4 tail into two hextets, locate at most one
interior empty part (the `::`), validate the group counts and hextets, and
assemble the 128-bit value. Zone suffixes (%scope) are not modelled and
parse as failure. -/
def parseIPv6 (s : String) : Option Nat :=
  let rawParts := splitChar ':' s.data
  if rawParts.length < 3 then none
  else
    let withV4 : Option (List (List Char)) :=
      match rawParts.getLast? with
      | some last =>
          if last.contains '.' then
            match parseIPv4 (String.mk last) with
            | some v =>
                some (rawParts.dropLast ++ [natHexChars (v >>> 16), natHexChars (v &&& 65535)])
            | none => none
          else some rawParts
      | none => none
    match withV4 with
    | none => none
    | some ps =>
        let n := ps.length
        if 9 < n then none
        else
          let interior := (List.range n).filter
            (fun i => decide (0 < i) && decide (i < n - 1) && (ps.getD i ['x']).isEmpty)
          match interior with
          | [] =>
              if n == 8 && ps.all validHextet then
                some (ps.foldl (fun a p => a * 65536 + hextetValue p) 0)
              else none
          | [i] =>
              let firstEmpty := (ps.headD ['x']).isEmpty
              let lastEmpty := (ps.getLastD ['x']).isEmpty
              let partsHi := if firstEmpty then i - 1 else i
              let partsLo0 := n - i - 1
              let partsLo := if lastEmpty then partsLo0 - 1 else partsLo0
              if firstEmpty && partsHi ≠ 0 then none
              else if lastEmpty && partsLo ≠ 0 then none
              else if 7 < partsHi + partsLo then none
              else
                let hi := ps.take partsHi
                let lo := ps.drop (n - partsLo)
                if (hi ++ lo).all validHextet then
                  let hiV := hi.foldl (fun a p => a * 65536 + hextetValue p) 0
                  let loV := lo.foldl (fun a p => a * 65536 + hextetValue p) 0
                  some (hiV * 2 ^ (16 * (8 - partsHi)) + loV)
                else none
          | _ => none

/-- validation.is_private_ip: parse with ipaddress.ip_address (IPv4 first,
then IPv6; failure gives False) and test membership in BLOCKED_IP_RANGES.
A network of the other IP version never contains an address, so the v4
ranges apply to v4 addresses and the v6 ranges to v6 addresses:
127.0.0.0/8, 10.0.0.0/8, 172.16.0.0/12, 192.168.0.0/16, 169.254.0.0/16;
::1/128, fc00::/7, fe80::/10. -/
def is_private_ip (ip_str : String) : Bool :=
  match parseIPv4 ip_str with
  | some v =>
      (v >>> 24 == 127) || (v >>> 24 == 10) || (v >>> 20 == 2753) ||
      (v >>> 16 == 49320) || (v >>> 16 == 43518)
  | none =>
      match parseIPv6 ip_str with
      | some v => (v == 1) || (v >>> 121 == 126) || (v >>> 118 == 1018)
      | none => false

/-! ## URL validators (`validation.py`)

DNS resolution is a parameter: `resolve h` models `socket.gethostbyname(h)`
returning the address string, with `none` for a resolution failure
(socket.gaierror). -/

/-- Result of a validator whose every failure is a ValidationError. -/
inductive VResult where
  | ok (url : String)
  | err (detail : String)
deriving DecidableEq, Repr

/-- The fixed hostname denylist of validate_image_url. -/
def blocked_hostnames : List String :=
  ["localhost", "0.0.0.0", "metadata.google.internal", "metadata"]

/-- List-level prefix test. -/
def isPrefixList : List Char → List Char → Bool
  | [], _ => true
  | _ :: _, [] => false
  | a :: as, b :: bs => a == b && isPrefixList as bs

/-- Contiguous-sublist test. -/
def isInfixList (p : List Char) : List Char → Bool
  | [] => isPrefixList p []
  | b :: bs => isPrefixList p (b :: bs) || isInfixList p bs

/-- Case-insensitive substring containment, re.search of a literal
pattern under re.IGNORECASE. -/
def containsCI (pat : String) (s : String) : Bool :=
  isInfixList (pat.data.map Char.toLower) (s.data.map Char.toLower)

/-- The suspicious raw-URL patterns of validate_image_url. -/
def suspicious_patterns : List String :=
  ["file://", "ftp://", "gopher://", "dict://", "@"]

/-- validation.validate_image_url with DNS resolution explicit. Every
failure raises ValidationError (the private-address branch is re-wrapped
by the catch-all `except Exception` but remains a ValidationError); the
exact message texts are abbreviated. -/
def validate_image_url (resolve : String → Option String) (url : String) : VResult :=
  if url = "" then .err "Image URL is required"
  else if 2000 < url.length then .err "Image URL too long (max 2000 characters)"
  else
    if ¬ ((urlparse url).scheme = "http" ∨ (urlparse url).scheme = "https") then
      .err "Invalid URL scheme"
    else
      match (urlparse url).hostname with
      | none => .err "URL must have a hostname"
      | some h =>
          if blocked_hostnames.contains h then .err "Blocked hostname"
          else
            match resolve h with
            | none => .err "Could not resolve hostname"
            | some ip =>
                if is_private_ip ip then
                  .err "Error validating URL: private or internal IP address"
                else if suspicious_patterns.any (fun p => containsCI p url) then
                  .err "Suspicious pattern detected in URL"
                else .ok url

/-- Result of validate_webhook_url: success carries None for an absent
URL; a missing hostname reaches socket.gethostbyname(None), which raises
TypeError — an exception that is not a ValidationError. -/
inductive WebhookUrlResult where
  | ok (url : Option String)
  | err (detail : String)
  | typeError
deriving DecidableEq, Repr

/-- validation.validate_webhook_url with DNS resolution explicit: empty
input returns None; otherwise only a scheme check and the resolved-address
check are applied — no length bound, no hostname denylist, no
suspicious-pattern scan. -/
def validate_webhook_url (resolve : String → Option String) (url : String) :
    WebhookUrlResult :=
  if url = "" then .ok none
  else
    if ¬ ((urlparse url).scheme = "http" ∨ (urlparse url).scheme = "https") then
      .err "Webhook URL must use http or https"
    else
      match (urlparse url).hostname with
      | none => .typeError
      | some h =>
          match resolve h with
          | none => .err "Could not resolve webhook hostname"
          | some ip =>
              if is_private_ip ip then
                .err "Webhook URL cannot point to private/internal IP addresses"
              else .ok (some url)

/-! ## Theorems -/

/-- The fixed all-failure response oracle: every POST gets a non-2xx
answer (scenario D: the receiver returns HTTP 500 on every attempt). -/
def alwaysFail : Nat → Bool := fun _ => false

/-- Helper: the all-failure run of the delivery recursion issues one
failed bookkeeping update per attempt from `attempt` through max_retries
and sleeps the exponential backoff after every non-final attempt. -/
theorem deliverAux_alwaysFail (mr : Nat) :
    ∀ fuel attempt, attempt + fuel = mr + 1 → 1 ≤ attempt →
      deliverWebhookAux alwaysFail mr fuel attempt =
        ⟨(List.range' attempt fuel).map (fun a => (false, a)),
         (List.range' attempt (fuel - 1)).map (fun a => ((2 : ℚ) ^ a) * (5 / 2)),
         false⟩ := by
  intro fuel
  induction fuel with
  | zero =>
      intro attempt hsum h1
      have : mr < attempt := by omega
      simp [deliverWebhookAux, List.range']
  | succ f ih =>
      intro attempt hsum h1
      have hguard : ¬ (mr < attempt) := by omega
      rcases Nat.eq_zero_or_pos f with hf | hf
      · subst hf
        have hma : attempt = mr := by omega
        subst hma
        simp [deliverWebhookAux, alwaysFail, hguard, List.range']
      · obtain ⟨f2, rfl⟩ : ∃ f2, f = f2 + 1 := ⟨f - 1, by omega⟩
        have hlt : attempt < mr := by omega
        have hrest := ih (attempt + 1) (by omega) (by omega)
        conv_lhs => rw [deliverWebhookAux]
        rw [if_neg hguard, if_neg (by simp [alwaysFail]), if_pos hlt, hrest]
        simp [List.range'_succ]

/-- Helper: one limiter check never grows the stored list beyond the
limit when it was within the limit before. -/
theorem check_rate_limit_length_le (s : List ℚ) (now : ℚ) (limit : Nat)
    (h : s.length ≤ limit) : ((check_rate_limit s now limit).2).length ≤ limit := by
  unfold check_rate_limit
  split
  · exact le_trans (List.length_filter_le _ _) h
  · rename_i hnot
    simp only [List.length_append, List.length_cons, List.length_nil]
    have hlt : (pruneWindow now s).length < limit := by omega
    omega

/-- Helper: along any request sequence the stored list for a fingerprint
never holds more than `limit` timestamps. -/
theorem runLimiter_length_le (limit : Nat) (reqs : List ℚ) :
    (runLimiter limit reqs).length ≤ limit := by
  suffices h : ∀ s : List ℚ, s.length ≤ limit →
      (reqs.foldl (fun st t => (check_rate_limit st t limit).2) s).length ≤ limit by
    exact h [] (by simp)
  induction reqs with
  | nil => intro s hs; simpa using hs
  | cons t rest ih =>
      intro s hs
      simpa using ih _ (check_rate_limit_length_le s t limit hs)

/-- Helper: pruning at the very instant of the recorded timestamps keeps
them all (their age is 0 < 60). -/
theorem pruneWindow_replicate_now (i : Nat) (t : ℚ) :
    pruneWindow t (List.replicate i t) = List.replicate i t := by
  unfold pruneWindow
  rw [List.filter_replicate]
  norm_num

/-- Helper: pruning exactly 60 seconds after the recorded timestamps
drops them all (the strict `< 60` comparison fails at age 60). -/
theorem pruneWindow_replicate_expired (i : Nat) (t : ℚ) :
    pruneWindow (t + 60) (List.replicate i t) = [] := by
  unfold pruneWindow
  rw [List.filter_replicate]
  norm_num

/-- Helper: starting under the limit, a burst of identical-instant
requests is recorded one per allowed check. -/
theorem runLimiter_replicate (N : Nat) (t : ℚ) :
    ∀ (k i : Nat), i + k ≤ N →
      (List.replicate k t).foldl (fun st x => (check_rate_limit st x N).2)
          (List.replicate i t) =
        List.replicate (i + k) t := by
  intro k
  induction k with
  | zero => intro i h; simp
  | succ m ih =>
      intro i h
      rw [List.replicate_succ, List.foldl_cons]
      have hstep : (check_rate_limit (List.replicate i t) t N).2 = List.replicate (i + 1) t := by
        unfold check_rate_limit
        rw [pruneWindow_replicate_now]
        have hlen : ¬ (N ≤ (List.replicate i t).length) := by
          simp only [List.length_replicate]
          omega
        rw [if_neg hlen]
        simp [List.replicate_succ']
      rw [hstep]
      have hrec := ih (i + 1) (by omega)
      rw [hrec]
      congr 1
      omega

/-- C1 counterexample: the claim fails on the code. complete_job and
fail_job update `WHERE job_id = :job_id` with no guard on the current
status, so calling fail_job on a job already completed changes the stored
status and sets the error description. -/
theorem C1_counterexample :
    (complete_job (mark_processing (create_job "job-1" none 0) 1)
        "https://cdn.example/v.mp4" "videos/job-1.mp4" 42 2).status = "completed"
    ∧ (fail_job (complete_job (mark_processing (create_job "job-1" none 0) 1)
        "https://cdn.example/v.mp4" "videos/job-1.mp4" 42 2) "boom" 3).status = "failed"
    ∧ (fail_job (complete_job (mark_processing (create_job "job-1" none 0) 1)
        "https://cdn.example/v.mp4" "videos/job-1.mp4" 42 2) "boom" 3).status ≠
      (complete_job (mark_processing (create_job "job-1" none 0) 1)
        "https://cdn.example/v.mp4" "videos/job-1.mp4" 42 2).status
    ∧ (complete_job (mark_processing (create_job "job-1" none 0) 1)
        "https://cdn.example/v.mp4" "videos/job-1.mp4" 42 2).error_message = none
    ∧ (fail_job (complete_job (mark_processing (create_job "job-1" none 0) 1)
        "https://cdn.example/v.mp4" "videos/job-1.mp4" 42 2) "boom" 3).error_message =
      some "boom" := by
  decide

/-- C1 (amended): the terminal-transition operations carry no status
guard. Repeating the same operation with identical arguments leaves
status, result location and error description as that operation set them;
a call to the other terminal operation after a terminal state overwrites
the status and sets its own payload without clearing the other's; webhook
bookkeeping fields are untouched by both operations, and conversely
update_webhook_delivered leaves status and the terminal payload alone. -/
theorem C1_terminal_transitions_unguarded (j : Job) (v o m : String)
    (g t t2 : ℚ) (d : Bool) (a : Nat) :
    ((complete_job (complete_job j v o g t) v o g t2).status =
        (complete_job j v o g t).status
      ∧ (complete_job (complete_job j v o g t) v o g t2).video_url =
        (complete_job j v o g t).video_url
      ∧ (complete_job (complete_job j v o g t) v o g t2).video_object_name =
        (complete_job j v o g t).video_object_name
      ∧ (complete_job (complete_job j v o g t) v o g t2).error_message =
        (complete_job j v o g t).error_message)
    ∧ ((fail_job (fail_job j m t) m t2).status = (fail_job j m t).status
      ∧ (fail_job (fail_job j m t) m t2).error_message = (fail_job j m t).error_message
      ∧ (fail_job (fail_job j m t) m t2).video_url = (fail_job j m t).video_url)
    ∧ ((fail_job (complete_job j v o g t) m t2).status = "failed"
      ∧ (fail_job (complete_job j v o g t) m t2).error_message = some (pyTake 4000 m)
      ∧ (fail_job (complete_job j v o g t) m t2).video_url = some v)
    ∧ ((complete_job (fail_job j m t) v o g t2).status = "completed"
      ∧ (complete_job (fail_job j m t) v o g t2).video_url = some v
      ∧ (complete_job (fail_job j m t) v o g t2).error_message = some (pyTake 4000 m))
    ∧ ((complete_job j v o g t).webhook_delivered = j.webhook_delivered
      ∧ (complete_job j v o g t).webhook_attempts = j.webhook_attempts
      ∧ (fail_job j m t).webhook_delivered = j.webhook_delivered
      ∧ (fail_job j m t).webhook_attempts = j.webhook_attempts)
    ∧ ((update_webhook_delivered j d a t).status = j.status
      ∧ (update_webhook_delivered j d a t).video_url = j.video_url
      ∧ (update_webhook_delivered j d a t).error_message = j.error_message) :=
  ⟨⟨rfl, rfl, rfl, rfl⟩, ⟨rfl, rfl, rfl⟩, ⟨rfl, rfl, rfl⟩, ⟨rfl, rfl, rfl⟩,
   ⟨rfl, rfl, rfl, rfl⟩, ⟨rfl, rfl, rfl⟩⟩

/-- C3: the failure path of process_job persists the RAW `str(e)` through
fail_job (only truncated to 4000 characters there), not the sanitized
message, and the webhook payload for the failed job carries that raw text
back out. At an exception whose text holds filesystem paths and a source
line reference, the persisted and outgoing text still contains the path,
while the sanitized form the claim prescribes differs from it. -/
theorem C3_raw_error_persisted :
    (processJobFailure (mark_processing (create_job "job-2" (some "https://cb.example/hook") 0) 1)
        ⟨"RuntimeError", "CUDA error at /opt/model/eng.py line 214: failed to open /tmp/outputs/vid.mp4"⟩
        2).error_message =
      some "CUDA error at /opt/model/eng.py line 214: failed to open /tmp/outputs/vid.mp4"
    ∧ containsCI "/tmp/outputs"
        "CUDA error at /opt/model/eng.py line 214: failed to open /tmp/outputs/vid.mp4" = true
    ∧ ("error_message",
        JValue.jstr "CUDA error at /opt/model/eng.py line 214: failed to open /tmp/outputs/vid.mp4") ∈
      buildWebhookPayload
        (processJobFailure (mark_processing (create_job "job-2" (some "https://cb.example/hook") 0) 1)
          ⟨"RuntimeError", "CUDA error at /opt/model/eng.py line 214: failed to open /tmp/outputs/vid.mp4"⟩
          2)
    ∧ sanitize_error_message
        ⟨"RuntimeError", "CUDA error at /opt/model/eng.py line 214: failed to open /tmp/outputs/vid.mp4"⟩
        true =
      "RuntimeError: CUDA error at [PATH] line [N]: failed to open [PATH]"
    ∧ sanitize_error_message
        ⟨"RuntimeError", "CUDA error at /opt/model/eng.py line 214: failed to open /tmp/outputs/vid.mp4"⟩
        true ≠
      "CUDA error at /opt/model/eng.py line 214: failed to open /tmp/outputs/vid.mp4" := by
  decide

/-- C4: signing then verifying with the same secret succeeds for every
payload and secret; verification succeeds exactly when the submitted
signature equals the recomputed HMAC of the canonical key-sorted JSON, so
it fails whenever the HMAC digests differ — in particular for a different
secret or for a payload whose canonical bytes differ. -/
theorem C4_webhook_signature :
    (∀ (p : Payload) (s : String),
      verify_webhook_signature p (generate_signature s p) s = true)
    ∧ (∀ (p : Payload) (sig s : String),
      verify_webhook_signature p sig s = true ↔ sig = generate_signature s p)
    ∧ (∀ (p p2 : Payload) (s s2 : String),
      generate_signature s p ≠ generate_signature s2 p2 →
        verify_webhook_signature p2 (generate_signature s p) s2 = false) := by
  refine ⟨fun p s => ?_, fun p sig s => ?_, fun p p2 s s2 hne => ?_⟩
  · simp [verify_webhook_signature, constant_time_compare]
  · simp [verify_webhook_signature, constant_time_compare]
  · simp only [verify_webhook_signature, constant_time_compare]
    exact beq_eq_false_iff_ne.mpr hne

/-- C4 witness: at a concrete payload, a wrong secret makes verification
fail, and under a fixed secret a payload differing in one byte signs to a
different header, which then fails to verify against the original. -/
theorem C4_webhook_signature_witness :
    (generate_signature "secret-a-123456" [("job_id", JValue.jstr "j1"), ("status", JValue.jstr "completed")] ≠
      generate_signature "secret-b-123456" [("job_id", JValue.jstr "j1"), ("status", JValue.jstr "completed")])
    ∧ verify_webhook_signature [("job_id", JValue.jstr "j1"), ("status", JValue.jstr "completed")]
        (generate_signature "secret-a-123456" [("job_id", JValue.jstr "j1"), ("status", JValue.jstr "completed")])
        "secret-b-123456" = false
    ∧ (generate_signature "secret-a-123456" [("job_id", JValue.jstr "j1"), ("status", JValue.jstr "completed")] ≠
      generate_signature "secret-a-123456" [("job_id", JValue.jstr "j2"), ("status", JValue.jstr "completed")])
    ∧ verify_webhook_signature [("job_id", JValue.jstr "j2"), ("status", JValue.jstr "completed")]
        (generate_signature "secret-a-123456" [("job_id", JValue.jstr "j1"), ("status", JValue.jstr "completed")])
        "secret-a-123456" = false :=
  ⟨by decide,
   C4_webhook_signature.2.2 [("job_id", JValue.jstr "j1"), ("status", JValue.jstr "completed")]
     [("job_id", JValue.jstr "j1"), ("status", JValue.jstr "completed")]
     "secret-a-123456" "secret-b-123456" (by decide),
   by decide,
   C4_webhook_signature.2.2 [("job_id", JValue.jstr "j1"), ("status", JValue.jstr "completed")]
     [("job_id", JValue.jstr "j2"), ("status", JValue.jstr "completed")]
     "secret-a-123456" "secret-a-123456" (by decide)⟩

/-- C8 counterexample: the claim fails on the code. The handler always
passes `started_at=datetime.utcnow()` and update_job_status overwrites the
column whenever a timestamp is supplied, so a second mark-processing call
changes started_at. -/
theorem C8_counterexample :
    (mark_processing (create_job "job-3" none 0) 1).started_at = some 1
    ∧ (mark_processing (mark_processing (create_job "job-3" none 0) 1) 5).started_at = some 5
    ∧ (mark_processing (mark_processing (create_job "job-3" none 0) 1) 5).started_at ≠
      (mark_processing (create_job "job-3" none 0) 1).started_at
    ∧ (mark_processing (mark_processing (create_job "job-3" none 0) 1) 5).status =
      "processing" := by
  decide

/-- C8 (amended): mark_processing always sets the status to processing,
and a repeated call keeps the status processing but overwrites started_at
with its own (later) timestamp — the column moves forward, never
backward, when the calls are in time order; it is not left unchanged. -/
theorem C8_mark_processing_overwrites (j : Job) (t1 t2 : ℚ) :
    ((mark_processing j t1).status = "processing")
    ∧ ((mark_processing (mark_processing j t1) t2).status = "processing")
    ∧ ((mark_processing (mark_processing j t1) t2).started_at = some t2)
    ∧ (t1 ≤ t2 →
        ((mark_processing (mark_processing j t1) t2).started_at = some t2
          ∧ (mark_processing j t1).started_at = some t1 ∧ t1 ≤ t2)) :=
  ⟨rfl, rfl, rfl, fun hle => ⟨rfl, rfl, hle⟩⟩

/-- C8 witness: the amended statement at a concrete job and ordered
timestamps. -/
theorem C8_mark_processing_overwrites_witness :
    (mark_processing (mark_processing (create_job "job-w8" none 0) 1) 2).started_at = some 2
    ∧ (mark_processing (create_job "job-w8" none 0) 1).started_at = some 1
    ∧ (1 : ℚ) ≤ 2 :=
  (C8_mark_processing_overwrites (create_job "job-w8" none 0) 1 2).2.2.2 (by norm_num)

/-- C6 counterexample: in the all-failure run with the default
max_retries of 3, the sleeps actually performed are 5s and 10s only — the
20s value of the backoff formula is never slept, because no sleep follows
the final attempt. -/
theorem C6_counterexample :
    (deliver_webhook alwaysFail 3 1).sleeps = [5, 10]
    ∧ (20 : ℚ) ∉ (deliver_webhook alwaysFail 3 1).sleeps
    ∧ (deliver_webhook alwaysFail 3 1).sleeps ≠ [5, 10, 20] := by
  have e : (3 + 1 - 1 : Nat) = 3 := rfl
  have h := deliverAux_alwaysFail 3 3 1 (by omega) (by omega)
  have hs : (deliver_webhook alwaysFail 3 1).sleeps = [5, 10] := by
    unfold deliver_webhook
    rw [e, h]
    simp [List.range']
    norm_num
  refine ⟨hs, ?_, ?_⟩
  · rw [hs]
    decide
  · rw [hs]
    decide

/-- C6 (amended): when every attempt fails, the dispatcher makes exactly
max_retries attempts, persisting delivered=false with the running attempt
count after each one (so the final stored state is delivered=false with
attempts=max_retries), sleeps base*2^attempt (5s, 10s for the default 3)
after each non-final attempt only, then stops with result false; the
bookkeeping updates never touch the job's status or terminal payload. -/
theorem C6_delivery_exhausts_and_stops :
    (deliver_webhook alwaysFail 3 1 =
      ⟨[(false, 1), (false, 2), (false, 3)], [5, 10], false⟩)
    ∧ (∀ mr : Nat, deliver_webhook alwaysFail (mr + 1) 1 =
        ⟨(List.range' 1 (mr + 1)).map (fun a => (false, a)),
         (List.range' 1 mr).map (fun a => ((2 : ℚ) ^ a) * (5 / 2)),
         false⟩)
    ∧ (∀ (j : Job) (dl : Bool) (a : Nat) (t : ℚ),
        (update_webhook_delivered j dl a t).status = j.status
        ∧ (update_webhook_delivered j dl a t).video_url = j.video_url
        ∧ (update_webhook_delivered j dl a t).error_message = j.error_message
        ∧ (update_webhook_delivered j dl a t).webhook_delivered = dl
        ∧ (update_webhook_delivered j dl a t).webhook_attempts = a)
    ∧ (∀ (j : Job) (t : ℚ),
        (applyDeliveryTrace j (deliver_webhook alwaysFail 3 1).dbUpdates t).status = j.status
        ∧ (applyDeliveryTrace j (deliver_webhook alwaysFail 3 1).dbUpdates t).webhook_delivered
            = false
        ∧ (applyDeliveryTrace j (deliver_webhook alwaysFail 3 1).dbUpdates t).webhook_attempts
            = 3) := by
  refine ⟨?_, fun mr => ?_, fun j dl a t => ⟨rfl, rfl, rfl, rfl, rfl⟩,
    fun j t => ⟨rfl, rfl, rfl⟩⟩
  · have e : (3 + 1 - 1 : Nat) = 3 := rfl
    have h := deliverAux_alwaysFail 3 3 1 (by omega) (by omega)
    unfold deliver_webhook
    rw [e, h]
    simp [List.range']
    norm_num
  · have hfuel : mr + 1 + 1 - 1 = mr + 1 := by omega
    have h := deliverAux_alwaysFail (mr + 1) (mr + 1) 1 (by omega) (by omega)
    unfold deliver_webhook
    rw [hfuel, h]
    simp

/-- C9 counterexample: the claim fails on the code. With two configured
credentials, verifying the one stored first performs one comparison and
verifying the one stored second performs two — the comparison work depends
on the position of the matching credential in an equal-size list. -/
theorem C9_counterexample :
    (verify_api_key ["aaaaaaaaaaaaaaaa", "bbbbbbbbbbbbbbbb"] (some "aaaaaaaaaaaaaaaa")).2 = 1
    ∧ (verify_api_key ["aaaaaaaaaaaaaaaa", "bbbbbbbbbbbbbbbb"] (some "bbbbbbbbbbbbbbbb")).2 = 2
    ∧ (verify_api_key ["aaaaaaaaaaaaaaaa", "bbbbbbbbbbbbbbbb"] (some "aaaaaaaaaaaaaaaa")).2 ≠
      (verify_api_key ["aaaaaaaaaaaaaaaa", "bbbbbbbbbbbbbbbb"] (some "bbbbbbbbbbbbbbbb")).2 := by
  decide

/-- C9 (amended): each individual comparison is a constant-time digest
comparison, but the loop breaks on the first logical match: the number of
comparisons performed equals one more than the index of the first
matching configured credential (capped at the list length, which is
reached when none matches), and verify_api_key performs exactly the
loop's comparisons whenever the submitted key passes the format check. -/
theorem C9_comparison_count :
    (∀ (key_hash : String) (cfg : List String),
      (verifyLoop key_hash cfg).2 =
        min (cfg.findIdx (fun ck => constant_time_compare key_hash (hash_api_key ck)) + 1)
          cfg.length)
    ∧ (∀ (cfg : List String) (k : String), validate_api_key_format k = true →
        (verify_api_key cfg (some k)).2 = (verifyLoop (hash_api_key k) cfg).2) := by
  constructor
  · intro kh cfg
    induction cfg with
    | nil => simp [verifyLoop]
    | cons c rest ih =>
        by_cases hc : constant_time_compare kh (hash_api_key c)
        · simp [verifyLoop, hc, List.findIdx_cons]
        · simp only [verifyLoop, hc, Bool.false_eq_true, if_false, List.findIdx_cons,
            List.length_cons, ih]
          simp [hc, Nat.succ_min_succ]
  · intro cfg k hf
    have hk : ¬ (k = "") := by
      intro h
      subst h
      simp [validate_api_key_format] at hf
    simp only [verify_api_key, if_neg hk, hf]
    norm_num
    split <;> rfl

/-- C9 witness: the amended statement at a concrete credential list. -/
theorem C9_comparison_count_witness :
    validate_api_key_format "aaaaaaaaaaaaaaaa" = true
    ∧ (verify_api_key ["aaaaaaaaaaaaaaaa", "bbbbbbbbbbbbbbbb"] (some "aaaaaaaaaaaaaaaa")).2 =
      (verifyLoop (hash_api_key "aaaaaaaaaaaaaaaa") ["aaaaaaaaaaaaaaaa", "bbbbbbbbbbbbbbbb"]).2 :=
  ⟨by decide,
   C9_comparison_count.2 ["aaaaaaaaaaaaaaaa", "bbbbbbbbbbbbbbbb"] "aaaaaaaaaaaaaaaa" (by decide)⟩

/-- C10: a denied check records nothing — the stored list changes only by
pruning of entries older than 60 seconds — and consequently the stored
list, and its in-window portion at any instant, never exceed the limit
along any request sequence. -/
theorem C10_denied_request_records_nothing :
    (∀ (times : List ℚ) (now : ℚ) (limit : Nat),
      (check_rate_limit times now limit).1 = false →
        (check_rate_limit times now limit).2 = pruneWindow now times)
    ∧ (∀ (limit : Nat) (reqs : List ℚ), (runLimiter limit reqs).length ≤ limit)
    ∧ (∀ (limit : Nat) (reqs : List ℚ) (now : ℚ),
        (pruneWindow now (runLimiter limit reqs)).length ≤ limit) := by
  refine ⟨?_, runLimiter_length_le, ?_⟩
  · intro times now limit h
    by_cases hc : limit ≤ (pruneWindow now times).length
    · simp [check_rate_limit, hc]
    · simp [check_rate_limit, hc] at h
  · intro limit reqs now
    exact le_trans (List.length_filter_le _ _) (runLimiter_length_le limit reqs)

/-- C10 witness: a concrete denied check leaves exactly the pruned
window. -/
theorem C10_denied_request_records_nothing_witness :
    (check_rate_limit [0, 0] 1 2).1 = false
    ∧ (check_rate_limit [0, 0] 1 2).2 = pruneWindow 1 [0, 0] := by
  have hp : pruneWindow 1 [0, 0] = ([0, 0] : List ℚ) := by
    unfold pruneWindow
    norm_num
  have hd : (check_rate_limit [0, 0] 1 2).1 = false := by
    unfold check_rate_limit
    rw [hp]
    norm_num
  exact ⟨hd, C10_denied_request_records_nothing.1 [0, 0] 1 2 hd⟩

/-- C5: a check finding the limit already met in the pruned window is
denied and surfaces as a RateLimitError with the 60-second retry hint; a
check after every recorded request is at least 60 seconds old is allowed;
an allowed check records its timestamp; and concretely, with limit N, a
burst of N requests at one instant is fully recorded, the (N+1)-th check
at that instant is denied with RateLimitError, and a check 60 seconds
later is allowed again. -/
theorem C5_rate_limit_window :
    (∀ (times : List ℚ) (now : ℚ) (limit : Nat),
      limit ≤ (pruneWindow now times).length →
        check_rate_limit times now limit = (false, pruneWindow now times)
        ∧ check_rate_limit_dev times now limit =
            (.rateLimitError 60, pruneWindow now times))
    ∧ (∀ (times : List ℚ) (now : ℚ) (limit : Nat), 0 < limit →
        (∀ ts ∈ times, 60 ≤ now - ts) → (check_rate_limit times now limit).1 = true)
    ∧ (∀ (times : List ℚ) (now : ℚ) (limit : Nat),
        (check_rate_limit times now limit).1 = true →
          (check_rate_limit times now limit).2 = pruneWindow now times ++ [now])
    ∧ (∀ (N : Nat) (t : ℚ), 0 < N →
        runLimiter N (List.replicate N t) = List.replicate N t
        ∧ (check_rate_limit (List.replicate N t) t N).1 = false
        ∧ check_rate_limit_dev (List.replicate N t) t N =
            (.rateLimitError 60, List.replicate N t)
        ∧ (check_rate_limit (List.replicate N t) (t + 60) N).1 = true) := by
  refine ⟨?_, ?_, ?_, ?_⟩
  · intro times now limit h
    constructor
    · simp [check_rate_limit, h]
    · simp [check_rate_limit_dev, check_rate_limit, h]
  · intro times now limit hpos hold
    have hempty : pruneWindow now times = [] := by
      unfold pruneWindow
      rw [List.filter_eq_nil_iff]
      intro ts hts
      have := hold ts hts
      simp only [decide_eq_true_eq]
      linarith
    simp [check_rate_limit, hempty, Nat.not_le.mpr hpos]
  · intro times now limit h
    by_cases hc : limit ≤ (pruneWindow now times).length
    · simp [check_rate_limit, hc] at h
    · simp [check_rate_limit, hc]
  · intro N t hpos
    refine ⟨?_, ?_, ?_, ?_⟩
    · have := runLimiter_replicate N t N 0 (by omega)
      simpa [runLimiter] using this
    · simp [check_rate_limit, pruneWindow_replicate_now]
    · simp [check_rate_limit_dev, check_rate_limit, pruneWindow_replicate_now]
    · simp [check_rate_limit, pruneWindow_replicate_expired, Nat.not_le.mpr hpos]

/-- Helper: the only success path of validate_image_url returns the input
URL and passes the resolution check — the hostname resolved to an address
outside every blocked range. -/
theorem validate_image_url_ok_shape (resolve : String → Option String) (url u : String)
    (hok : validate_image_url resolve url = .ok u) :
    u = url ∧ ∃ hst ip, (urlparse url).hostname = some hst ∧ resolve hst = some ip ∧
      is_private_ip ip = false := by
  unfold validate_image_url at hok
  split at hok
  · simp at hok
  split at hok
  · simp at hok
  split at hok
  · simp at hok
  split at hok
  · simp at hok
  rename_i hst hhst
  split at hok
  · simp at hok
  split at hok
  · simp at hok
  rename_i ip hres
  split at hok
  · simp at hok
  split at hok
  · simp at hok
  rename_i hpriv _
  refine ⟨?_, hst, ip, hhst, hres, ?_⟩
  · injection hok with h
    exact h.symm
  · simpa using hpriv

/-- C2: whenever the hostname of the URL resolves to a blocked
(loopback, private, link-local or unique-local) address — however the
hostname is spelled, since the statement quantifies over the resolver —
or resolution fails, validate_image_url raises a ValidationError; a
success is possible only when resolution succeeded on an address outside
every blocked range. -/
theorem C2_private_resolution_rejected (resolve : String → Option String)
    (url hst : String) (hh : (urlparse url).hostname = some hst) :
    (∀ u, validate_image_url resolve url = .ok u →
        u = url ∧ ∃ ip, resolve hst = some ip ∧ is_private_ip ip = false)
    ∧ (resolve hst = none → ∃ d, validate_image_url resolve url = .err d)
    ∧ (∀ ip, resolve hst = some ip → is_private_ip ip = true →
        ∃ d, validate_image_url resolve url = .err d) := by
  refine ⟨?_, ?_, ?_⟩
  · intro u hok
    obtain ⟨hu, h2, ip, hh2, hres, hpriv⟩ := validate_image_url_ok_shape resolve url u hok
    rw [hh] at hh2
    injection hh2 with he
    subst he
    exact ⟨hu, ip, hres, hpriv⟩
  · intro hnone
    cases hv : validate_image_url resolve url with
    | err d => exact ⟨d, rfl⟩
    | ok u =>
        obtain ⟨_, h2, ip, hh2, hres, _⟩ := validate_image_url_ok_shape resolve url u hv
        rw [hh] at hh2
        injection hh2 with he
        subst he
        rw [hnone] at hres
        cases hres
  · intro ip hres hpriv
    cases hv : validate_image_url resolve url with
    | err d => exact ⟨d, rfl⟩
    | ok u =>
        obtain ⟨_, h2, ip2, hh2, hres2, hpriv2⟩ := validate_image_url_ok_shape resolve url u hv
        rw [hh] at hh2
        injection hh2 with he
        subst he
        rw [hres] at hres2
        injection hres2 with he2
        subst he2
        rw [hpriv] at hpriv2
        cases hpriv2

/-- C2 witness: a URL whose hostname resolves to an RFC1918 address is
rejected; the same validator also rejects when the resolver fails. -/
theorem C2_private_resolution_rejected_witness :
    ((urlparse "http://internal.example/a").hostname = some "internal.example")
    ∧ ((fun s => if s = "internal.example" then some "10.0.0.5" else none)
        "internal.example" = some "10.0.0.5")
    ∧ is_private_ip "10.0.0.5" = true
    ∧ (∃ d, validate_image_url
        (fun s => if s = "internal.example" then some "10.0.0.5" else none)
        "http://internal.example/a" = .err d) := by
  refine ⟨by decide, by decide, by decide, ?_⟩
  exact (C2_private_resolution_rejected
    (fun s => if s = "internal.example" then some "10.0.0.5" else none)
    "http://internal.example/a" "internal.example" (by decide)).2.2
    "10.0.0.5" (by decide) (by decide)

/-- C7 counterexample: the claim fails on the code. A URL with an
embedded credential (user@host) is rejected by validate_image_url through
its suspicious-pattern scan, but validate_webhook_url has no such scan
and accepts the same URL under the same resolver. -/
theorem C7_counterexample :
    validate_image_url (fun h => if h = "example.com" then some "93.184.216.34" else none)
        "https://user@example.com/hook" = .err "Suspicious pattern detected in URL"
    ∧ validate_webhook_url (fun h => if h = "example.com" then some "93.184.216.34" else none)
        "https://user@example.com/hook" = .ok (some "https://user@example.com/hook") := by
  constructor
  · decide
  · decide

/-- Helper: the only success path of validate_webhook_url on a nonempty
URL passes the scheme check and the resolution check. -/
theorem validate_webhook_url_ok_shape (resolve : String → Option String) (url u : String)
    (hok : validate_webhook_url resolve url = .ok (some u)) :
    u = url ∧ ((urlparse url).scheme = "http" ∨ (urlparse url).scheme = "https")
    ∧ ∃ hst ip, (urlparse url).hostname = some hst ∧ resolve hst = some ip ∧
        is_private_ip ip = false := by
  unfold validate_webhook_url at hok
  split at hok
  · simp at hok
  split at hok
  · simp at hok
  rename_i hne hsch
  split at hok
  · simp at hok
  rename_i hst hhst
  split at hok
  · simp at hok
  rename_i ip hres
  split at hok
  · simp at hok
  rename_i hpriv
  refine ⟨?_, not_not.mp hsch, hst, ip, hhst, hres, by simpa using hpriv⟩
  injection hok with h
  injection h with h2
  exact h2.symm

/-- C7 (amended): validate_webhook_url applies the same scheme check and
the same resolved-address SSRF check as the image validator — a bad
scheme, a failed resolution, or a blocked resolved address each raise a
ValidationError, and success requires an allowed scheme and a resolved
public address — but it omits the image validator's length bound,
hostname-presence check (a hostless URL raises TypeError instead),
hostname denylist and suspicious-pattern scan, so some URLs the image
validator rejects are accepted. -/
theorem C7_webhook_shared_ssrf_checks (resolve : String → Option String) (url : String) :
    (url ≠ "" → ¬ ((urlparse url).scheme = "http" ∨ (urlparse url).scheme = "https") →
        validate_webhook_url resolve url = .err "Webhook URL must use http or https")
    ∧ (∀ hst, url ≠ "" → (urlparse url).hostname = some hst → resolve hst = none →
        ∃ d, validate_webhook_url resolve url = .err d)
    ∧ (∀ hst ip, url ≠ "" → (urlparse url).hostname = some hst → resolve hst = some ip →
        is_private_ip ip = true → ∃ d, validate_webhook_url resolve url = .err d)
    ∧ (∀ u, validate_webhook_url resolve url = .ok (some u) →
        u = url ∧ ((urlparse url).scheme = "http" ∨ (urlparse url).scheme = "https")
        ∧ ∃ hst ip, (urlparse url).hostname = some hst ∧ resolve hst = some ip ∧
            is_private_ip ip = false) := by
  refine ⟨?_, ?_, ?_, validate_webhook_url_ok_shape resolve url⟩
  · intro hne hsch
    unfold validate_webhook_url
    rw [if_neg hne, if_pos hsch]
  · intro hst hne hhst hres
    unfold validate_webhook_url
    rw [if_neg hne]
    by_cases hsch : ¬ ((urlparse url).scheme = "http" ∨ (urlparse url).scheme = "https")
    · rw [if_pos hsch]
      exact ⟨_, rfl⟩
    · rw [if_neg hsch, hhst]
      simp only
      rw [hres]
      exact ⟨_, rfl⟩
  · intro hst ip hne hhst hres hpriv
    unfold validate_webhook_url
    rw [if_neg hne]
    by_cases hsch : ¬ ((urlparse url).scheme = "http" ∨ (urlparse url).scheme = "https")
    · rw [if_pos hsch]
      exact ⟨_, rfl⟩
    · rw [if_neg hsch, hhst]
      simp only
      rw [hres]
      simp only
      rw [if_pos (by simpa using hpriv)]
      exact ⟨_, rfl⟩

/-- C7 witness: the amended statement at a concrete blocked resolution —
a webhook URL whose hostname resolves to the link-local metadata address
is rejected. -/
theorem C7_webhook_shared_ssrf_checks_witness :
    ("https://hooks.example/cb" ≠ "")
    ∧ ((urlparse "https://hooks.example/cb").hostname = some "hooks.example")
    ∧ ((fun s => if s = "hooks.example" then some "169.254.169.254" else none)
        "hooks.example" = some "169.254.169.254")
    ∧ is_private_ip "169.254.169.254" = true
    ∧ (∃ d, validate_webhook_url
        (fun s => if s = "hooks.example" then some "169.254.169.254" else none)
        "https://hooks.example/cb" = .err d) := by
  refine ⟨by decide, by decide, by decide, by decide, ?_⟩
  exact (C7_webhook_shared_ssrf_checks
    (fun s => if s = "hooks.example" then some "169.254.169.254" else none)
    "https://hooks.example/cb").2.2.1 "hooks.example" "169.254.169.254"
    (by decide) (by decide) (by decide) (by decide)

/-- C5 witness: the burst scenario at limit 2 and instant 0. -/
theorem C5_rate_limit_window_witness :
    runLimiter 2 (List.replicate 2 (0 : ℚ)) = List.replicate 2 (0 : ℚ)
    ∧ (check_rate_limit (List.replicate 2 (0 : ℚ)) 0 2).1 = false
    ∧ check_rate_limit_dev (List.replicate 2 (0 : ℚ)) 0 2 =
        (.rateLimitError 60, List.replicate 2 (0 : ℚ))
    ∧ (check_rate_limit (List.replicate 2 (0 : ℚ)) ((0 : ℚ) + 60) 2).1 = true :=
  C5_rate_limit_window.2.2.2 2 0 (by decide)

end LtxVidGen
